import Mathlib

/-!
Verification of the Griddy microgrid backend (HackMIT 2025).

This file embeds, in Lean, the parts of the code base that the checked
claims talk about:

* `src/binary_protocol.py` — the ESP32 wire codec.  Byte strings are
  modelled as `List ℕ` (each entry one byte).  IEEE-754 float32 fields
  travel through the codec as opaque 4-byte payloads, so they are
  modelled by their 32-bit pattern (a natural number `< 2^32`); the codec
  never interprets them.  `struct.pack` raising on an out-of-range field
  is modelled by the encoders returning `none`.
* `src/backend/main.py` — the per-cycle scheduling path: confidence
  scoring, the escalation bookkeeping and the dispatch normalisation.
  Python float arithmetic is idealised as exact rational arithmetic (ℚ).
* `src/backend/microgrid_optimizer.py` — dispatch extraction from a
  solved MILP model, and the demand forecaster.  The forecaster's FFT
  pipeline is modelled over ℝ/ℂ with the exact discrete Fourier
  transform.
* `src/backend/cerebras_agent.py` — the local validation applied to the
  LLM service's response.
-/

namespace Griddy

/-! ### Byte-level primitives (struct.pack / struct.unpack, little endian) -/

/-- `struct.pack('<I', n)`: the four little-endian bytes of a 32-bit word.
The in-range check (`n < 2^32`) is applied by the callers. -/
def pack32 (n : ℕ) : List ℕ :=
  [n % 256, n / 256 % 256, n / 2 ^ 16 % 256, n / 2 ^ 24 % 256]

/-- `struct.unpack('<I', ...)`: reassemble a 32-bit word from four
little-endian bytes. -/
def unpack32 (b0 b1 b2 b3 : ℕ) : ℕ :=
  b0 + 256 * b1 + 2 ^ 16 * b2 + 2 ^ 24 * b3

theorem pack32_length (n : ℕ) : (pack32 n).length = 4 := rfl

theorem unpack32_pack32 {n : ℕ} (h : n < 2 ^ 32) :
    unpack32 (n % 256) (n / 256 % 256) (n / 2 ^ 16 % 256) (n / 2 ^ 24 % 256) = n := by
  unfold unpack32
  omega

/-! ### Data model of `binary_protocol.py` -/

/-- `TELEMETRY_MAGIC = 0x47524944` ("GRID"), `binary_protocol.py:48`. -/
def TELEMETRY_MAGIC : ℕ := 0x47524944

/-- `DISPATCH_MAGIC = 0x44495350` ("DISP"), `binary_protocol.py:49`. -/
def DISPATCH_MAGIC : ℕ := 0x44495350

/-- `TelemetryNode` (`binary_protocol.py:55-61`).  `demand` and
`fulfillment` are float32 fields, represented by their bit patterns. -/
structure TelemetryNode where
  id : ℕ
  type : ℕ
  demand : ℕ
  fulfillment : ℕ
deriving DecidableEq, Repr

/-- `TelemetryPacket` (`binary_protocol.py:63-67`). -/
structure TelemetryPacket where
  timestamp : ℕ
  nodes : List TelemetryNode
deriving DecidableEq, Repr

/-- `DispatchNode` (`binary_protocol.py:69-74`).  `supply` is a float32
field, represented by its bit pattern. -/
structure DispatchNode where
  id : ℕ
  supply : ℕ
  source : ℕ
deriving DecidableEq, Repr

/-- `DispatchPacket` (`binary_protocol.py:76-79`). -/
structure DispatchPacket where
  nodes : List DispatchNode
deriving DecidableEq, Repr

/-- Field ranges under which every `struct.pack` call inside
`encode_telemetry` succeeds: `'<B'` needs a byte, `'<I'`/`'<f'` need a
32-bit payload. -/
def ValidTelemetryNode (n : TelemetryNode) : Prop :=
  n.id < 256 ∧ n.type < 256 ∧ n.demand < 2 ^ 32 ∧ n.fulfillment < 2 ^ 32

instance (n : TelemetryNode) : Decidable (ValidTelemetryNode n) := by
  unfold ValidTelemetryNode; infer_instance

def ValidTelemetryPacket (p : TelemetryPacket) : Prop :=
  p.timestamp < 2 ^ 32 ∧ p.nodes.length < 256 ∧ ∀ n ∈ p.nodes, ValidTelemetryNode n

instance (p : TelemetryPacket) : Decidable (ValidTelemetryPacket p) := by
  unfold ValidTelemetryPacket; infer_instance

def ValidDispatchNode (n : DispatchNode) : Prop :=
  n.id < 256 ∧ n.supply < 2 ^ 32 ∧ n.source < 256

instance (n : DispatchNode) : Decidable (ValidDispatchNode n) := by
  unfold ValidDispatchNode; infer_instance

def ValidDispatchPacket (p : DispatchPacket) : Prop :=
  p.nodes.length < 256 ∧ ∀ n ∈ p.nodes, ValidDispatchNode n

instance (p : DispatchPacket) : Decidable (ValidDispatchPacket p) := by
  unfold ValidDispatchPacket; infer_instance

/-! ### Encoders (`binary_protocol.py:84-113` and `181-206`) -/

/-- The 10 bytes `encode_telemetry` appends per node
(`binary_protocol.py:107-111`): id (1), type (1), demand (4),
fulfillment (4) — and no padding byte.  (The module docstring calls this
"9 bytes each", but 1+1+4+4 = 10.) -/
def telemetryNodeBytes (n : TelemetryNode) : List ℕ :=
  [n.id, n.type] ++ pack32 n.demand ++ pack32 n.fulfillment

/-- `BinaryProtocol.encode_telemetry` (`binary_protocol.py:84-113`):
magic, timestamp, node count, then the per-node records.  `none` models
`struct.error` being raised on an out-of-range field. -/
def encode_telemetry (p : TelemetryPacket) : Option (List ℕ) :=
  if ValidTelemetryPacket p then
    some (pack32 TELEMETRY_MAGIC ++ pack32 p.timestamp ++ [p.nodes.length] ++
      p.nodes.flatMap telemetryNodeBytes)
  else none

/-- The 6 bytes `encode_dispatch` appends per node
(`binary_protocol.py:201-204`): id, supply, source. -/
def dispatchNodeBytes (n : DispatchNode) : List ℕ :=
  [n.id] ++ pack32 n.supply ++ [n.source]

/-- `BinaryProtocol.encode_dispatch` (`binary_protocol.py:181-206`):
magic, node count, then the per-node records. -/
def encode_dispatch (p : DispatchPacket) : Option (List ℕ) :=
  if ValidDispatchPacket p then
    some (pack32 DISPATCH_MAGIC ++ [p.nodes.length] ++
      p.nodes.flatMap dispatchNodeBytes)
  else none

/-! ### Decoders (`binary_protocol.py:115-179` and `208-261`) -/

/-- The node-parsing loop of `decode_telemetry`
(`binary_protocol.py:152-174`): each iteration reads id (offset +0),
type (+1), skips one padding byte (+2), then reads two 4-byte floats
(+3..+6 and +7..+10) — advancing the offset by 11 per node.  A
`struct.unpack` whose slice is short of the requested size raises
`struct.error` (caught by the outer handler, which returns `None`);
that is modelled by `none`, and the reads happen iff 11 bytes remain. -/
def parseTelemetryNodes : ℕ → List ℕ → Option (List TelemetryNode)
  | 0, _ => some []
  | k + 1, rest =>
      if rest.length < 11 then none
      else
        (parseTelemetryNodes k (rest.drop 11)).map
          ({ id := rest.getD 0 0
             type := rest.getD 1 0
             demand := unpack32 (rest.getD 3 0) (rest.getD 4 0) (rest.getD 5 0) (rest.getD 6 0)
             fulfillment :=
               unpack32 (rest.getD 7 0) (rest.getD 8 0) (rest.getD 9 0) (rest.getD 10 0) }
             :: ·)

/-- `BinaryProtocol.decode_telemetry` (`binary_protocol.py:115-179`).
Checks, in source order: minimum length 9, the magic, and that the total
length is exactly `9 + 10·count` ("ESP32 C struct has padding - actual
node size is 10 bytes, not 9", lines 146-149).  Note the mismatch: the
length check budgets 10 bytes per node while the parse loop consumes 11,
so for `count ≥ 1` the loop's final read overruns and the function
returns `None`. -/
def decode_telemetry (data : List ℕ) : Option TelemetryPacket :=
  if data.length < 9 then none
  else if unpack32 (data.getD 0 0) (data.getD 1 0) (data.getD 2 0) (data.getD 3 0)
      ≠ TELEMETRY_MAGIC then none
  else if data.length ≠ 9 + data.getD 8 0 * 10 then none
  else
    (parseTelemetryNodes (data.getD 8 0) (data.drop 9)).map
      (fun nodes =>
        { timestamp :=
            unpack32 (data.getD 4 0) (data.getD 5 0) (data.getD 6 0) (data.getD 7 0)
          nodes := nodes })

/-- The node-parsing loop of `decode_dispatch`
(`binary_protocol.py:241-256`): 6 bytes per node — id (+0), 4-byte
supply (+1..+4), source (+5), advancing the offset by 6.  Out-of-data
reads (`struct.error`) are modelled by `none` exactly as in
`parseTelemetryNodes`; here the prior length check makes them
unreachable. -/
def parseDispatchNodes : ℕ → List ℕ → Option (List DispatchNode)
  | 0, _ => some []
  | k + 1, rest =>
      if rest.length < 6 then none
      else
        (parseDispatchNodes k (rest.drop 6)).map
          ({ id := rest.getD 0 0
             supply := unpack32 (rest.getD 1 0) (rest.getD 2 0) (rest.getD 3 0) (rest.getD 4 0)
             source := rest.getD 5 0 }
             :: ·)

/-- `BinaryProtocol.decode_dispatch` (`binary_protocol.py:208-261`).
Checks, in source order: minimum length 5, the magic, and that the total
length is exactly `5 + 6·count`. -/
def decode_dispatch (data : List ℕ) : Option DispatchPacket :=
  if data.length < 5 then none
  else if unpack32 (data.getD 0 0) (data.getD 1 0) (data.getD 2 0) (data.getD 3 0)
      ≠ DISPATCH_MAGIC then none
  else if data.length ≠ 5 + data.getD 4 0 * 6 then none
  else
    (parseDispatchNodes (data.getD 4 0) (data.drop 5)).map
      (fun nodes => { nodes := nodes })

end Griddy

namespace Griddy

/-! ### Codec lemmas -/

theorem telemetryNodeBytes_length (n : TelemetryNode) : (telemetryNodeBytes n).length = 10 :=
  rfl

theorem dispatchNodeBytes_length (n : DispatchNode) : (dispatchNodeBytes n).length = 6 :=
  rfl

theorem length_flatMap_telemetryNodeBytes (l : List TelemetryNode) :
    (l.flatMap telemetryNodeBytes).length = 10 * l.length := by
  induction l with
  | nil => simp
  | cons n ns ih =>
      simp only [List.flatMap_cons, List.length_append, ih, telemetryNodeBytes_length,
        List.length_cons]
      ring

theorem length_flatMap_dispatchNodeBytes (l : List DispatchNode) :
    (l.flatMap dispatchNodeBytes).length = 6 * l.length := by
  induction l with
  | nil => simp
  | cons n ns ih =>
      simp only [List.flatMap_cons, List.length_append, ih, dispatchNodeBytes_length,
        List.length_cons]
      ring

/-- Parsing the byte image of a valid dispatch node list recovers the list. -/
theorem parseDispatchNodes_flatMap (l : List DispatchNode)
    (h : ∀ n ∈ l, ValidDispatchNode n) :
    parseDispatchNodes l.length (l.flatMap dispatchNodeBytes) = some l := by
  induction l with
  | nil => rfl
  | cons n ns ih =>
      obtain ⟨nid, nsup, nsrc⟩ := n
      obtain ⟨hid, hsup, hsrc⟩ : ValidDispatchNode ⟨nid, nsup, nsrc⟩ :=
        h _ (List.mem_cons_self _ _)
      have hrest : ∀ m ∈ ns, ValidDispatchNode m := fun m hm => h m (List.mem_cons_of_mem _ hm)
      have hlen :
          (dispatchNodeBytes ⟨nid, nsup, nsrc⟩ ++ ns.flatMap dispatchNodeBytes).length
            = 6 + 6 * ns.length := by
        rw [List.length_append, dispatchNodeBytes_length, length_flatMap_dispatchNodeBytes]
      simp only [List.length_cons, List.flatMap_cons, parseDispatchNodes]
      rw [if_neg (by omega)]
      have hdrop : (dispatchNodeBytes ⟨nid, nsup, nsrc⟩ ++ ns.flatMap dispatchNodeBytes).drop 6
          = ns.flatMap dispatchNodeBytes := by
        have := List.drop_left (dispatchNodeBytes ⟨nid, nsup, nsrc⟩) (ns.flatMap dispatchNodeBytes)
        rwa [dispatchNodeBytes_length] at this
      rw [hdrop, ih hrest, Option.map_some']
      have hsup' : nsup < 2 ^ 32 := hsup
      have hu : unpack32 (nsup % 256) (nsup / 256 % 256) (nsup / 65536 % 256)
          (nsup / 16777216 % 256) = nsup := by
        simp only [unpack32]; omega
      simp [dispatchNodeBytes, pack32, hu]

/-- Every successfully parsed dispatch node list has exactly the
requested number of nodes. -/
theorem parseDispatchNodes_length :
    ∀ (k : ℕ) (rest : List ℕ) (l : List DispatchNode),
      parseDispatchNodes k rest = some l → l.length = k := by
  intro k
  induction k with
  | zero =>
      intro rest l h
      simp only [parseDispatchNodes, Option.some.injEq] at h
      simp [← h]
  | succ m ih =>
      intro rest l h
      simp only [parseDispatchNodes] at h
      by_cases hl : rest.length < 6
      · rw [if_pos hl] at h; exact absurd h (by simp)
      · rw [if_neg hl, Option.map_eq_some'] at h
        obtain ⟨l', hl', rfl⟩ := h
        simp [ih _ _ hl']

/-- Every successfully parsed telemetry node list has exactly the
requested number of nodes. -/
theorem parseTelemetryNodes_length :
    ∀ (k : ℕ) (rest : List ℕ) (l : List TelemetryNode),
      parseTelemetryNodes k rest = some l → l.length = k := by
  intro k
  induction k with
  | zero =>
      intro rest l h
      simp only [parseTelemetryNodes, Option.some.injEq] at h
      simp [← h]
  | succ m ih =>
      intro rest l h
      simp only [parseTelemetryNodes] at h
      by_cases hl : rest.length < 11
      · rw [if_pos hl] at h; exact absurd h (by simp)
      · rw [if_neg hl, Option.map_eq_some'] at h
        obtain ⟨l', hl', rfl⟩ := h
        simp [ih _ _ hl']

example : pack32 DISPATCH_MAGIC = [0x50, 0x53, 0x49, 0x44] := by decide
example : pack32 TELEMETRY_MAGIC = [0x44, 0x49, 0x52, 0x47] := by decide

/-- The three-node telemetry packet of the module's own round-trip test
`test_protocol` (`binary_protocol.py:296-313`), with the float fields
replaced by in-range bit patterns (the codec never interprets them). -/
def testTelemetryPacket : TelemetryPacket :=
  { timestamp := 1234567890
    nodes := [ { id := 1, type := 0, demand := 0, fulfillment := 0x42BF0000 }
             , { id := 2, type := 1, demand := 0x40200000, fulfillment := 0x42B06666 }
             , { id := 3, type := 1, demand := 0x3FE66666, fulfillment := 0x42B83333 } ] }

/-- The two-node dispatch packet of `test_protocol`
(`binary_protocol.py:317-322`); supplies 0.65 and 0.42 as float32 bit
patterns. -/
def testDispatchPacket : DispatchPacket :=
  { nodes := [ { id := 2, supply := 0x3F266666, source := 1 }
             , { id := 3, supply := 0x3ED70A3D, source := 1 } ] }

/-- A minimal valid single-node telemetry packet: consumer node 7 with
demand 2.5 (bits 0x40200000) and fulfillment 96.0 (bits 0x42C00000). -/
def oneNodeTelemetryPacket : TelemetryPacket :=
  { timestamp := 0, nodes := [ { id := 7, type := 1, demand := 0x40200000, fulfillment := 0x42C00000 } ] }

/-- The very telemetry frame the device would send for
`oneNodeTelemetryPacket` under the padded C-struct layout the decoder's
length check describes: magic, timestamp 0, count 1, then an 11-byte
node record id/type/padding/demand/fulfillment. -/
def paddedTelemetryFrame : List ℕ :=
  [0x44, 0x49, 0x52, 0x47, 0, 0, 0, 0, 1,
   0x07, 0x01, 0x00, 0x00, 0x00, 0x20, 0x40, 0x00, 0x00, 0xC0, 0x42]

/-- C1.  The claimed telemetry round-trip `decode(encode(P)) = P` fails
for every packet with at least one node: `encode_telemetry` emits
10-byte node records with no padding byte (total `9 + 10·K`), while
`decode_telemetry` skips a padding byte and consumes 11 bytes per node
against a length check budgeting 10 — so decoding returns `None`.  At
the concrete failing input `oneNodeTelemetryPacket`: the encoder yields
a 19-byte frame whose decode is `None`; even the 20-byte padded
device-layout frame decodes to `None` (its length fails the
`9 + 10·K` check); only the zero-node packet round-trips. -/
theorem claim_C1_telemetry_roundtrip_fails :
    (encode_telemetry oneNodeTelemetryPacket).map List.length = some 19 ∧
    (encode_telemetry oneNodeTelemetryPacket).bind decode_telemetry = none ∧
    decode_telemetry paddedTelemetryFrame = none ∧
    (encode_telemetry { timestamp := 5, nodes := [] }).bind decode_telemetry
      = some { timestamp := 5, nodes := [] } := by
  refine ⟨by decide, by decide, by decide, by decide⟩

/-- C2.  Encoder frame lengths: exactly `9 + 10·K` bytes for a valid
telemetry packet with `K` nodes and `5 + 6·K` bytes for a valid dispatch
packet with `K` nodes (`K ≤ 255`, all fields byte- or word-representable). -/
theorem claim_C2_encoded_frame_lengths :
    (∀ p : TelemetryPacket, ValidTelemetryPacket p →
        (encode_telemetry p).map List.length = some (9 + 10 * p.nodes.length)) ∧
    (∀ p : DispatchPacket, ValidDispatchPacket p →
        (encode_dispatch p).map List.length = some (5 + 6 * p.nodes.length)) := by
  constructor
  · intro p h
    unfold encode_telemetry
    rw [if_pos h, Option.map_some']
    have := length_flatMap_telemetryNodeBytes p.nodes
    simp only [Option.some.injEq, List.length_append, pack32, List.length_cons, this]
    simp only [List.length_nil]
  · intro p h
    unfold encode_dispatch
    rw [if_pos h, Option.map_some']
    have := length_flatMap_dispatchNodeBytes p.nodes
    simp only [Option.some.injEq, List.length_append, pack32, List.length_cons, this]
    simp only [List.length_nil]

/-- Witness for C2 at the module's own test packets (3 telemetry nodes →
39 bytes, 2 dispatch nodes → 17 bytes). -/
theorem claim_C2_encoded_frame_lengths_witness :
    (encode_telemetry testTelemetryPacket).map List.length = some 39 ∧
    (encode_dispatch testDispatchPacket).map List.length = some 17 := by
  constructor
  · have := claim_C2_encoded_frame_lengths.1 testTelemetryPacket (by decide)
    simpa using this
  · have := claim_C2_encoded_frame_lengths.2 testDispatchPacket (by decide)
    simpa using this

/-- C9.  The dispatch round-trip law: for every valid dispatch packet
(ids and sources are bytes, supply a 32-bit float payload), decoding the
encoder's output returns the packet unchanged. -/
theorem claim_C9_dispatch_roundtrip (p : DispatchPacket) (h : ValidDispatchPacket p) :
    (encode_dispatch p).bind decode_dispatch = some p := by
  have hnodes : ∀ n ∈ p.nodes, ValidDispatchNode n := h.2
  have hbody := length_flatMap_dispatchNodeBytes p.nodes
  have hmagic4 : pack32 DISPATCH_MAGIC = [80, 83, 73, 68] := by decide
  unfold encode_dispatch
  rw [if_pos h, Option.some_bind]
  have hcons : pack32 DISPATCH_MAGIC ++ [p.nodes.length] ++ p.nodes.flatMap dispatchNodeBytes
      = 80 :: 83 :: 73 :: 68 :: p.nodes.length :: p.nodes.flatMap dispatchNodeBytes := by
    rw [hmagic4]; rfl
  rw [hcons]
  unfold decode_dispatch
  rw [if_neg (by simp only [List.length_cons]; omega)]
  rw [if_neg (by simp only [List.getD_cons_zero, List.getD_cons_succ]; decide)]
  rw [if_neg (by simp only [List.getD_cons_zero, List.getD_cons_succ, List.length_cons]; omega)]
  have hdrop : List.drop 5 (80 :: 83 :: 73 :: 68 :: p.nodes.length ::
      p.nodes.flatMap dispatchNodeBytes) = p.nodes.flatMap dispatchNodeBytes := rfl
  have hcount : List.getD (80 :: 83 :: 73 :: 68 :: p.nodes.length ::
      p.nodes.flatMap dispatchNodeBytes) 4 0 = p.nodes.length := rfl
  rw [hdrop, hcount, parseDispatchNodes_flatMap p.nodes hnodes]
  rfl

/-- Witness for C9 at the module's own test dispatch packet. -/
theorem claim_C9_dispatch_roundtrip_witness :
    (encode_dispatch testDispatchPacket).bind decode_dispatch = some testDispatchPacket :=
  claim_C9_dispatch_roundtrip testDispatchPacket (by decide)

/-- C10.  The decoders are total functions into `Option` (every
`struct.error` path is caught and surfaces as `None`), and whenever they
do return a packet, its node list has exactly the length announced by
the frame's node-count byte (offset 8 for telemetry, offset 4 for
dispatch). -/
theorem claim_C10_decoders_total_and_count :
    (∀ (data : List ℕ) (p : TelemetryPacket), decode_telemetry data = some p →
        p.nodes.length = data.getD 8 0) ∧
    (∀ (data : List ℕ) (p : DispatchPacket), decode_dispatch data = some p →
        p.nodes.length = data.getD 4 0) := by
  constructor
  · intro data p h
    unfold decode_telemetry at h
    split at h
    · exact absurd h (by simp)
    · split at h
      · exact absurd h (by simp)
      · split at h
        · exact absurd h (by simp)
        · rw [Option.map_eq_some'] at h
          obtain ⟨nodes, hparse, rfl⟩ := h
          exact parseTelemetryNodes_length _ _ _ hparse
  · intro data p h
    unfold decode_dispatch at h
    split at h
    · exact absurd h (by simp)
    · split at h
      · exact absurd h (by simp)
      · split at h
        · exact absurd h (by simp)
        · rw [Option.map_eq_some'] at h
          obtain ⟨nodes, hparse, rfl⟩ := h
          exact parseDispatchNodes_length _ _ _ hparse

/-- Witness for C10: a 9-byte telemetry frame with count 0 and an
11-byte dispatch frame with count 1, both of which decode successfully
with matching node counts. -/
theorem claim_C10_decoders_total_and_count_witness :
    (({ timestamp := 0, nodes := [] } : TelemetryPacket).nodes.length
        = List.getD [0x44, 0x49, 0x52, 0x47, 0, 0, 0, 0, 0] 8 0) ∧
    (({ nodes := [{ id := 7, supply := 0, source := 1 }] } : DispatchPacket).nodes.length
        = List.getD [0x50, 0x53, 0x49, 0x44, 1, 7, 0, 0, 0, 0, 1] 4 0) :=
  ⟨claim_C10_decoders_total_and_count.1 _ _ (by decide),
   claim_C10_decoders_total_and_count.2 _ _ (by decide)⟩

end Griddy

namespace Griddy

/-! ### Scheduler-level data model

The per-cycle scheduling path of `main.py` / `microgrid_optimizer.py` /
`cerebras_agent.py`.  Python float arithmetic on this path is idealised
as exact rational arithmetic (ℚ). -/

/-- `DemandRecord` (`microgrid_optimizer.py:28-42`). -/
structure DemandRecord where
  timestamp : ℚ
  node_id : String
  demand_amps : ℚ
  fulfillment : ℚ
deriving DecidableEq

/-- `EnergySource` (`microgrid_optimizer.py:45-59`). -/
structure EnergySource where
  id : String
  max_supply_amps : ℚ
  cost_per_amp : ℚ
  ramp_limit_amps : Option ℚ
deriving DecidableEq

/-- A dispatch instruction `{"id", "supply_amps", "source_id"}` as built
by `_extract_dispatch` (`microgrid_optimizer.py:434-438`) and by the
escalation path (`main.py:369-375`). -/
structure DispatchInstruction where
  id : String
  supply_amps : ℚ
  source_id : String
deriving DecidableEq

/-- `ENERGY_SOURCES` (`main.py:76-78`): the single configured virtual
source, capacity 10 A at $0.10 per ampere, no ramp limit. -/
def ENERGY_SOURCES : List EnergySource :=
  [{ id := "VIRTUAL_ESP32", max_supply_amps := 10, cost_per_amp := 1 / 10,
     ramp_limit_amps := none }]

/-- Python's `round(x, 3)` (`microgrid_optimizer.py:436`): round to the
nearest multiple of 1/1000.  CPython breaks decimal ties to even, but a
3-decimal tie point `(2k+1)/2000` is not representable as a binary
float, so the tie rule is immaterial and Mathlib's `round` is used. -/
def round3 (q : ℚ) : ℚ := ((round (1000 * q) : ℤ) : ℚ) / 1000

/-- `MicrogridOptimizer._extract_dispatch`
(`microgrid_optimizer.py:407-447`): at `t = 1`, loop over nodes (outer)
and sources (inner) and emit one instruction per pair whose solved value
of `x[s,n,1]` exceeds the `1e-6` tolerance, with the amperes rounded to
3 decimals.  `x sid n` is the solver's value of variable `x_{sid}_{n}_1`
(PuLP's `value()` returning `None` is falsy and skipped, so `x` is
modelled as a total rational assignment). -/
def extract_dispatch (x : String → String → ℚ) (nodes : List String)
    (sources : List EnergySource) : List DispatchInstruction :=
  nodes.flatMap (fun n =>
    sources.filterMap (fun s =>
      if 1 / 1000000 < x s.id n then
        some { id := n, supply_amps := round3 (x s.id n), source_id := s.id }
      else none))

/-- The MILP's per-source capacity constraints at the committed epoch
`t = 1` (`microgrid_optimizer.py:321-326`):
`Σ_n x[s,n,1] ≤ s.max_supply_amps`, together with the variables' lower
bound `x ≥ 0` (`microgrid_optimizer.py:291-293`). -/
def SourceCapacityOK (x : String → String → ℚ) (nodes : List String)
    (sources : List EnergySource) : Prop :=
  ∀ s ∈ sources, (nodes.map (fun n => x s.id n)).sum ≤ s.max_supply_amps

/-- Sum of `supply_amps` over a list of dispatch instructions. -/
def totalSupply (l : List DispatchInstruction) : ℚ := (l.map (·.supply_amps)).sum

/-- Sum of `max_supply_amps` over the configured sources. -/
def totalCapacity (sources : List EnergySource) : ℚ :=
  (sources.map (·.max_supply_amps)).sum

/-! ### LLM escalation (`cerebras_agent.py`, `main.py:359-400`) -/

/-- `DispatchDecision` (`cerebras_agent.py:39-43`). -/
structure DispatchDecision where
  id : String
  supply_amps : ℚ
  source_id : String
deriving DecidableEq

/-- `CerebrasDispatchResponse` (`cerebras_agent.py:46-50`).  The comment
on `confidence` says "0.0-1.0" but the pydantic model carries a plain
`float`. -/
structure CerebrasDispatchResponse where
  decisions : List DispatchDecision
  reasoning : String
  confidence : ℚ
deriving DecidableEq

/-- One entry of a parsed JSON `decisions` array as it reaches local
validation: each required key either absent (`none`) or bound to a
well-typed value. -/
structure RawDecision where
  id : Option String
  supply_amps : Option ℚ
  source_id : Option String
deriving DecidableEq

/-- A parsed top-level JSON object as it reaches the validation code of
`make_dispatch_decision`. -/
structure RawResponse where
  decisions : Option (List RawDecision)
  reasoning : Option String
  confidence : Option ℚ
deriving DecidableEq

/-- The pydantic validation of a single decision
(`cerebras_agent.py:196-206`): the three keys are required; no bound is
placed on `supply_amps`. -/
def parseDecision (r : RawDecision) : Option DispatchDecision :=
  match r.id, r.supply_amps, r.source_id with
  | some i, some s, some src => some { id := i, supply_amps := s, source_id := src }
  | _, _, _ => none

/-- The entire local validation `make_dispatch_decision` applies to the
parsed JSON object (`cerebras_agent.py:255-264`): the three top-level
fields are required and type-checked via
`CerebrasDispatchResponse(**result_data)`.  No range check is applied to
`confidence` or `supply_amps` — the `minimum`/`maximum` bounds of
`cerebras_agent.py:209` live only in the JSON schema sent to the remote
service. -/
def parseCerebrasResponse (r : RawResponse) : Option CerebrasDispatchResponse :=
  match r.decisions, r.reasoning, r.confidence with
  | some ds, some reas, some conf =>
      (ds.mapM parseDecision).map
        (fun decs => { decisions := decs, reasoning := reas, confidence := conf })
  | _, _, _ => none

/-- The escalation path of `process_hardware_telemetry`
(`main.py:369-375`): a validated response's decisions replace the MILP
dispatch verbatim. -/
def postEscalationInstructions (resp : CerebrasDispatchResponse) : List DispatchInstruction :=
  resp.decisions.map (fun d =>
    { id := d.id, supply_amps := d.supply_amps, source_id := d.source_id })

/-- `main.py:377-379`: after a successful escalation, the recorded
confidence is the response's self-reported confidence, verbatim. -/
def escalationRecordedConfidence (resp : CerebrasDispatchResponse) : ℚ :=
  resp.confidence

/-! ### Dispatch normalisation (`main.py:515-536`) -/

/-- The `DispatchNode` values constructed by `send_dispatch_to_hardware`
(`main.py:524-531`) before float32 encoding. -/
structure OutboundNode where
  id : ℕ
  supply : ℚ
  source : ℕ
deriving DecidableEq

/-- `send_dispatch_to_hardware`'s conversion loop (`main.py:526-531`):
`id = int(d["id"])` (node ids are numeric strings),
`supply = float(d["supply_amps"]) / 5.0` ("Normalize to 0-1 for PWM"),
`source = 1` ("simplified").  No clamping is applied. -/
def send_dispatch_nodes (instrs : List DispatchInstruction) : List OutboundNode :=
  instrs.map (fun d =>
    { id := (d.id.toNat?).getD 0, supply := d.supply_amps / 5, source := 1 })

/-! ### Confidence scoring (`main.py:492-513`) -/

/-- `np.mean` over a rational list (call sites guard non-emptiness). -/
def npMean (l : List ℚ) : ℚ := l.sum / l.length

/-- `np.var`: population variance. -/
def npVar (l : List ℚ) : ℚ := ((l.map (fun x => (x - npMean l) ^ 2)).sum) / l.length

/-- `list(buffer)[-50:]` and friends: the trailing `n` elements. -/
def takeLast {α : Type} (n : ℕ) (l : List α) : List α := l.drop (l.length - n)

/-- `calculate_confidence_score` (`main.py:492-513`), with the module's
`telemetry_buffer` passed explicitly.  Sequential structure mirrors the
source: `time_confidence = max(0, 1 - opt_time/100)`;
`satisfaction_ratio = min(1, Σ dispatch / max(Σ demand, 0.1))`;
`recent_demands = [r.demand_amps for r in list(buffer)[-50:]]`;
variance confidence from `np.var/np.mean` when `len(recent) > 10`, else
`0.5`; weighted `0.3/0.5/0.2` and clipped to `[0,1]`. -/
def calculate_confidence_score (records : List DemandRecord)
    (dispatch : List DispatchInstruction) (opt_time : ℚ)
    (telemetry_buffer : List DemandRecord) : ℚ :=
  let time_confidence := max 0 (1 - opt_time / 100)
  let total_demand := (records.map (·.demand_amps)).sum
  let total_dispatched := (dispatch.map (·.supply_amps)).sum
  let satisfaction_ratio := min 1 (total_dispatched / max total_demand (1 / 10))
  let recent_demands := (takeLast 50 telemetry_buffer).map (·.demand_amps)
  let variance_confidence :=
    if 10 < recent_demands.length then
      max 0 (1 - npVar recent_demands / max (npMean recent_demands) (1 / 10))
    else 1 / 2
  min 1 (max 0
    (3 / 10 * time_confidence + 1 / 2 * satisfaction_ratio + 1 / 5 * variance_confidence))

/-- The claim's reading of the variance branch: the variance-based term
is used as soon as **at least** 10 recent records exist (the source
requires strictly more than 10). -/
def confidence_claimed (records : List DemandRecord)
    (dispatch : List DispatchInstruction) (opt_time : ℚ)
    (telemetry_buffer : List DemandRecord) : ℚ :=
  let time_confidence := max 0 (1 - opt_time / 100)
  let total_demand := (records.map (·.demand_amps)).sum
  let total_dispatched := (dispatch.map (·.supply_amps)).sum
  let satisfaction_ratio := min 1 (total_dispatched / max total_demand (1 / 10))
  let recent_demands := (takeLast 50 telemetry_buffer).map (·.demand_amps)
  let variance_confidence :=
    if 10 ≤ recent_demands.length then
      max 0 (1 - npVar recent_demands / max (npMean recent_demands) (1 / 10))
    else 1 / 2
  min 1 (max 0
    (3 / 10 * time_confidence + 1 / 2 * satisfaction_ratio + 1 / 5 * variance_confidence))

end Griddy

namespace Griddy

/-! ### Lemmas about rounding and list sums -/

/-- 3-decimal rounding increases a value by at most 1/2000. -/
theorem round3_le_add (q : ℚ) : round3 q ≤ q + 1 / 2000 := by
  have h := abs_sub_round ((1000 : ℚ) * q)
  have h1 := (abs_le.mp h).2
  unfold round3
  rw [div_le_iff₀ (by norm_num : (0 : ℚ) < 1000)]
  have : |1000 * q - ((round (1000 * q) : ℤ) : ℚ)| ≤ 1 / 2 := h
  have h2 := (abs_le.mp this).1
  linarith

theorem totalSupply_nil : totalSupply [] = 0 := rfl

theorem totalSupply_cons (d : DispatchInstruction) (l : List DispatchInstruction) :
    totalSupply (d :: l) = d.supply_amps + totalSupply l := by
  simp [totalSupply]

theorem totalSupply_flatMap {α : Type} (l : List α) (g : α → List DispatchInstruction) :
    totalSupply (l.flatMap g) = (l.map (fun a => totalSupply (g a))).sum := by
  induction l with
  | nil => rfl
  | cons a t ih =>
      rw [List.flatMap_cons]
      simp only [totalSupply] at ih ⊢
      rw [List.map_append, List.sum_append, ih, List.map_cons, List.sum_cons]

theorem sum_map_zero {β : Type} (l : List β) : (l.map (fun _ => (0 : ℚ))).sum = 0 := by
  induction l with
  | nil => rfl
  | cons b t ih => simp [ih]

/-- Double sums over two lists commute. -/
theorem sum_map_comm {α β : Type} (l₁ : List α) (l₂ : List β) (f : α → β → ℚ) :
    (l₁.map (fun a => (l₂.map (fun b => f a b)).sum)).sum
      = (l₂.map (fun b => (l₁.map (fun a => f a b)).sum)).sum := by
  induction l₁ with
  | nil =>
      simp only [List.map_nil, List.sum_nil]
      exact (sum_map_zero l₂).symm
  | cons a t ih =>
      simp only [List.map_cons, List.sum_cons, ih, ← List.sum_map_add]

/-- The body of `_extract_dispatch`'s inner loop, named for use in the
lemmas below; `extract_dispatch` is definitionally
`nodes.flatMap (fun n => sources.filterMap (extractFilter x n))`. -/
def extractFilter (x : String → String → ℚ) (n : String) (s : EnergySource) :
    Option DispatchInstruction :=
  if 1 / 1000000 < x s.id n then
    some { id := n, supply_amps := round3 (x s.id n), source_id := s.id }
  else none

theorem extract_dispatch_eq (x : String → String → ℚ) (nodes : List String)
    (sources : List EnergySource) :
    extract_dispatch x nodes sources
      = nodes.flatMap (fun n => sources.filterMap (extractFilter x n)) := rfl

/-- Per-node bound for the extraction loop: the rounded, tolerance-filtered
supplies from one node are bounded by that node's unrounded column sum
plus 1/2000 per emitted instruction. -/
theorem extract_inner_bound (x : String → String → ℚ) (n : String)
    (hx : ∀ sid m, 0 ≤ x sid m) (sources : List EnergySource) :
    totalSupply (sources.filterMap (extractFilter x n))
      ≤ (sources.map (fun s => x s.id n)).sum
        + ((sources.filterMap (extractFilter x n)).length : ℚ) * (1 / 2000) := by
  induction sources with
  | nil => simp [totalSupply]
  | cons s ss ih =>
      by_cases hc : 1 / 1000000 < x s.id n
      · have hsome : extractFilter x n s
            = some { id := n, supply_amps := round3 (x s.id n), source_id := s.id } := by
          unfold extractFilter; rw [if_pos hc]
        rw [List.filterMap_cons_some hsome, totalSupply_cons]
        have hr := round3_le_add (x s.id n)
        simp only [List.map_cons, List.sum_cons, List.length_cons, Nat.cast_add, Nat.cast_one]
        linarith
      · have hnone : extractFilter x n s = none := by
          unfold extractFilter; rw [if_neg hc]
        rw [List.filterMap_cons_none hnone]
        have h0 := hx s.id n
        simp only [List.map_cons, List.sum_cons]
        linarith

end Griddy

namespace Griddy

/-! ### Claim theorems: scheduling path -/

/-- C3 (amended).  For a cycle whose dispatch comes from the MILP
extractor applied to a solver solution that satisfies the model's
nonnegativity and per-source capacity constraints at the committed
epoch, the emitted `supply_amps` sum to at most the total source
capacity plus the 3-decimal rounding slack of 1/2000 per emitted
instruction (`round(·, 3)` can push each value up by at most 0.0005).
No such bound holds for the LLM escalation path (see the
counterexample), whose decisions are emitted after type-shape validation
only. -/
theorem claim_C3_milp_dispatch_capacity (x : String → String → ℚ)
    (nodes : List String) (sources : List EnergySource)
    (hx : ∀ sid n, 0 ≤ x sid n)
    (hcap : SourceCapacityOK x nodes sources) :
    totalSupply (extract_dispatch x nodes sources)
      ≤ totalCapacity sources
        + ((extract_dispatch x nodes sources).length : ℚ) * (1 / 2000) := by
  rw [extract_dispatch_eq]
  rw [totalSupply_flatMap]
  have step1 :
      (nodes.map (fun n => totalSupply (sources.filterMap (extractFilter x n)))).sum
        ≤ (nodes.map (fun n =>
            (sources.map (fun s => x s.id n)).sum
              + ((sources.filterMap (extractFilter x n)).length : ℚ) * (1 / 2000))).sum :=
    List.sum_le_sum (fun n _ => extract_inner_bound x n hx sources)
  have step2 :
      (nodes.map (fun n =>
          (sources.map (fun s => x s.id n)).sum
            + ((sources.filterMap (extractFilter x n)).length : ℚ) * (1 / 2000))).sum
        = (nodes.map (fun n => (sources.map (fun s => x s.id n)).sum)).sum
          + (nodes.map (fun n =>
              ((sources.filterMap (extractFilter x n)).length : ℚ) * (1 / 2000))).sum := by
    rw [← List.sum_map_add]
  have step3 :
      (nodes.map (fun n => (sources.map (fun s => x s.id n)).sum)).sum
        ≤ totalCapacity sources := by
    rw [sum_map_comm nodes sources (fun n s => x s.id n)]
    exact List.sum_le_sum (fun s hs => hcap s hs)
  have step4 :
      (nodes.map (fun n =>
          ((sources.filterMap (extractFilter x n)).length : ℚ) * (1 / 2000))).sum
        = ((nodes.flatMap (fun n => sources.filterMap (extractFilter x n))).length : ℚ)
            * (1 / 2000) := by
    rw [List.length_flatMap]
    push_cast
    rw [← List.sum_map_mul_right]
    congr 1
    simp [Function.comp]
  linarith [step1, step2.le, step3, step4.le, step4.ge]

/-- Witness for C3 at a concrete feasible solution: one node, the real
`ENERGY_SOURCES` configuration, and `x ≡ 1`. -/
theorem claim_C3_milp_dispatch_capacity_witness :
    totalSupply (extract_dispatch (fun _ _ => 1) ["1"] ENERGY_SOURCES)
      ≤ totalCapacity ENERGY_SOURCES
        + ((extract_dispatch (fun _ _ => 1) ["1"] ENERGY_SOURCES).length : ℚ) * (1 / 2000) :=
  claim_C3_milp_dispatch_capacity (fun _ _ => 1) ["1"] ENERGY_SOURCES
    (fun _ _ => by norm_num)
    (by
      intro s hs
      simp only [ENERGY_SOURCES, List.mem_singleton] at hs
      subst hs
      norm_num)

/-- A syntactically valid LLM response allocating 100 A from source
"1" to node "1". -/
def overCapacityRawResponse : RawResponse :=
  { decisions := some [{ id := some "1", supply_amps := some 100, source_id := some "1" }]
    reasoning := some "ok"
    confidence := some (9 / 10) }

/-- The structured response the validation code accepts for
`overCapacityRawResponse`. -/
def overCapacityResponse : CerebrasDispatchResponse :=
  { decisions := [{ id := "1", supply_amps := 100, source_id := "1" }]
    reasoning := "ok"
    confidence := 9 / 10 }

/-- Counterexample to C3 as stated: a response that passes the entire
local validation of `make_dispatch_decision` yields an emitted dispatch
whose supply sum (100 A) exceeds the total configured capacity (10 A);
the escalation path performs no capacity cross-check. -/
theorem claim_C3_dispatch_capacity_counterexample :
    parseCerebrasResponse overCapacityRawResponse = some overCapacityResponse ∧
    totalSupply (postEscalationInstructions overCapacityResponse) = 100 ∧
    totalCapacity ENERGY_SOURCES = 10 ∧
    ¬(totalSupply (postEscalationInstructions overCapacityResponse)
        ≤ totalCapacity ENERGY_SOURCES) := by
  refine ⟨rfl, by norm_num [totalSupply, postEscalationInstructions, overCapacityResponse],
    by norm_num [totalCapacity, ENERGY_SOURCES], ?_⟩
  norm_num [totalSupply, postEscalationInstructions, overCapacityResponse,
    totalCapacity, ENERGY_SOURCES]

end Griddy

namespace Griddy

/-- C4 (amended).  The deterministic confidence is clamped to `[0,1]`
for every input.  After a successful LLM escalation the recorded
confidence is the response's value verbatim, and the local validation
constrains it only in type, not in range: every rational `c` (also
outside `[0,1]`) is the recorded confidence of some response that passes
validation. -/
theorem claim_C4_confidence_range :
    (∀ (records : List DemandRecord) (dispatch : List DispatchInstruction)
        (opt_time : ℚ) (buffer : List DemandRecord),
        0 ≤ calculate_confidence_score records dispatch opt_time buffer ∧
          calculate_confidence_score records dispatch opt_time buffer ≤ 1) ∧
    (∀ c : ℚ, ∃ raw : RawResponse, ∃ resp : CerebrasDispatchResponse,
        parseCerebrasResponse raw = some resp ∧ escalationRecordedConfidence resp = c) := by
  constructor
  · intro records dispatch opt_time buffer
    unfold calculate_confidence_score
    constructor
    · exact le_min zero_le_one (le_max_left 0 _)
    · exact min_le_left 1 _
  · intro c
    exact ⟨{ decisions := some [], reasoning := some "", confidence := some c },
      { decisions := [], reasoning := "", confidence := c }, rfl, rfl⟩

/-- A syntactically valid LLM response reporting confidence 2. -/
def outOfRangeRawResponse : RawResponse :=
  { decisions := some [{ id := some "1", supply_amps := some 2, source_id := some "1" }]
    reasoning := some "high"
    confidence := some 2 }

/-- The structured response the validation code accepts for
`outOfRangeRawResponse`. -/
def outOfRangeResponse : CerebrasDispatchResponse :=
  { decisions := [{ id := "1", supply_amps := 2, source_id := "1" }]
    reasoning := "high"
    confidence := 2 }

/-- Counterexample to C4 as stated: a response with confidence 2 passes
the entire local validation of `make_dispatch_decision`, and
`main.py:377-379` records that value verbatim — outside `[0,1]`. -/
theorem claim_C4_confidence_range_counterexample :
    parseCerebrasResponse outOfRangeRawResponse = some outOfRangeResponse ∧
    escalationRecordedConfidence outOfRangeResponse = 2 ∧
    ¬(escalationRecordedConfidence outOfRangeResponse ≤ 1) := by
  refine ⟨rfl, rfl, ?_⟩
  norm_num [escalationRecordedConfidence, outOfRangeResponse]

/-- C5 (amended).  The supply field handed to the dispatch encoder is
the instruction's solver amperes divided by the fixed reference 5 A —
with no clamping (and the source byte is always 1). -/
theorem claim_C5_supply_normalization :
    ∀ instrs : List DispatchInstruction,
      (send_dispatch_nodes instrs).map (·.supply)
        = instrs.map (fun d => d.supply_amps / 5) := by
  intro instrs
  simp [send_dispatch_nodes]

/-- Counterexample to C5 as stated: for a 10 A instruction the written
supply field is 2, not the claimed clamp `min 1 (max 0 (10/5)) = 1`. -/
theorem claim_C5_supply_normalization_counterexample :
    (send_dispatch_nodes
        [{ id := "1", supply_amps := 10, source_id := "VIRTUAL_ESP32" }]).map (·.supply)
      = [2] ∧
    min 1 (max 0 ((10 : ℚ) / 5)) = 1 ∧
    ((2 : ℚ) ≠ 1) := by
  refine ⟨by norm_num [send_dispatch_nodes], by norm_num, by norm_num⟩

/-- C8 (amended).  The deterministic confidence equals
`clip(0.3·T + 0.5·S + 0.2·V)` with `T = max(0, 1 − opt_time/100)`,
`S = min(1, Σ supply / max(Σ demand, 0.1))` over the cycle's records,
and `V` computed from the variance of the trailing 50 buffered demands
when **more than** 10 such records exist (the claim said "at least 10"),
else `V = 0.5`. -/
theorem claim_C8_confidence_formula :
    ∀ (records : List DemandRecord) (dispatch : List DispatchInstruction)
      (opt_time : ℚ) (buffer : List DemandRecord),
      calculate_confidence_score records dispatch opt_time buffer
        = min 1 (max 0
            (3 / 10 * max 0 (1 - opt_time / 100)
             + 1 / 2 * min 1 ((dispatch.map (·.supply_amps)).sum
                 / max ((records.map (·.demand_amps)).sum) (1 / 10))
             + 1 / 5 * (if 10 < ((takeLast 50 buffer).map (·.demand_amps)).length then
                   max 0 (1 - npVar ((takeLast 50 buffer).map (·.demand_amps))
                     / max (npMean ((takeLast 50 buffer).map (·.demand_amps))) (1 / 10))
                 else 1 / 2))) := by
  intro records dispatch opt_time buffer
  rfl

/-- A cycle with one unit-demand record, a matching one-unit dispatch,
zero optimization time, and exactly 10 buffered records of demand 1. -/
def tenRecordBuffer : List DemandRecord :=
  List.replicate 10 { timestamp := 0, node_id := "1", demand_amps := 1, fulfillment := 95 }

/-- Counterexample to C8 as stated: with exactly 10 buffered records the
code takes the `else` branch (`V = 0.5`, confidence 0.9) while the
claim's "at least 10" reading uses the variance term (`V = 1`,
confidence 1.0). -/
theorem claim_C8_confidence_formula_counterexample :
    calculate_confidence_score
        [{ timestamp := 0, node_id := "1", demand_amps := 1, fulfillment := 95 }]
        [{ id := "1", supply_amps := 1, source_id := "1" }] 0 tenRecordBuffer
      = 9 / 10 ∧
    confidence_claimed
        [{ timestamp := 0, node_id := "1", demand_amps := 1, fulfillment := 95 }]
        [{ id := "1", supply_amps := 1, source_id := "1" }] 0 tenRecordBuffer
      = 1 ∧
    (9 / 10 : ℚ) ≠ 1 := by
  have hdemands : (takeLast 50 tenRecordBuffer).map (·.demand_amps)
      = List.replicate 10 (1 : ℚ) := rfl
  have hmean : npMean (List.replicate 10 (1 : ℚ)) = 1 := by
    unfold npMean
    rw [List.sum_replicate, List.length_replicate]
    norm_num
  have hvar : npVar (List.replicate 10 (1 : ℚ)) = 0 := by
    unfold npVar
    rw [hmean, List.map_replicate]
    rw [List.sum_replicate, List.length_replicate]
    norm_num
  refine ⟨?_, ?_, by norm_num⟩
  · simp only [calculate_confidence_score]
    rw [hdemands]
    simp only [List.length_replicate, List.map_cons, List.map_nil, List.sum_cons,
      List.sum_nil]
    norm_num [max_def, min_def]
  · simp only [confidence_claimed]
    rw [hdemands, hvar, hmean]
    simp only [List.length_replicate, List.map_cons, List.map_nil, List.sum_cons,
      List.sum_nil]
    norm_num [max_def, min_def]

end Griddy

namespace Griddy

/-! ### Demand forecaster (`microgrid_optimizer.py:160-254`)

The FFT pipeline runs on floats in the source; it is modelled over ℝ/ℂ
with the exact discrete Fourier transform, so this part of the
development is noncomputable. -/

noncomputable section

/-- `scipy.fft.fft(demands)` (`microgrid_optimizer.py:207`): the
unnormalised DFT, `X_k = Σ_j d_j · exp(−2πi·j·k/L)`. -/
def dftCoeff (d : List ℝ) (k : ℕ) : ℂ :=
  ∑ j ∈ Finset.range d.length,
    (d.getD j 0 : ℂ) * Complex.exp (-(2 * (Real.pi : ℂ) * Complex.I * j * k) / d.length)

/-- `np.abs(fft_vals[1:half_len])` with `half_len = L // 2`
(`microgrid_optimizer.py:211-216`): magnitudes of the non-DC bins below
the Nyquist index, i.e. bins `1 .. L/2 − 1`. -/
def fourierMagnitudes (d : List ℝ) : List ℝ :=
  (List.range (d.length / 2 - 1)).map (fun i => Complex.abs (dftCoeff d (i + 1)))

/-- Insertion of a (magnitude, index) pair into a descending-by-magnitude
list. -/
def insertDesc (p : ℝ × ℕ) : List (ℝ × ℕ) → List (ℝ × ℕ)
  | [] => [p]
  | q :: rest => if q.1 ≤ p.1 then p :: q :: rest else q :: insertDesc p rest

/-- Descending insertion sort by magnitude. -/
def sortDesc : List (ℝ × ℕ) → List (ℝ × ℕ)
  | [] => []
  | p :: rest => insertDesc p (sortDesc rest)

/-- `np.argpartition(magnitudes, -K)[-K:] + 1`
(`microgrid_optimizer.py:222-223`): the indices of the `K`
largest-magnitude bins, shifted by 1 for the skipped DC bin.
`argpartition` places the `K` largest elements last without specifying
order among ties; it is modelled by a descending sort followed by
`take K`. -/
def dominantIndices (d : List ℝ) (K : ℕ) : List ℕ :=
  ((sortDesc ((fourierMagnitudes d).zip
      (List.range (fourierMagnitudes d).length))).take K).map (fun p => p.2 + 1)

/-- `filtered_fft` (`microgrid_optimizer.py:226-232`): keep the DC bin,
every selected dominant bin `idx`, and its conjugate mirror `L − idx`
(written only when `idx < L − 1`); all other bins are zeroed. -/
def filteredCoeff (d : List ℝ) (S : List ℕ) (k : ℕ) : ℂ :=
  if k = 0 then dftCoeff d 0
  else if k ∈ S then dftCoeff d k
  else if ∃ i ∈ S, i < d.length - 1 ∧ k = d.length - i then dftCoeff d k
  else 0

/-- `np.real(fft.ifft(filtered_fft))[j]` (`microgrid_optimizer.py:235`):
the real part of the normalised inverse DFT,
`f_j = ((Σ_k F_k · exp(2πi·k·j/L)) / L).re`. -/
def ifftRe (F : ℕ → ℂ) (L : ℕ) (j : ℕ) : ℝ :=
  ((∑ k ∈ Finset.range L, F k * Complex.exp ((2 * (Real.pi : ℂ) * Complex.I * k * j) / L)) / L).re

/-- `MicrogridOptimizer._fourier_forecast`
(`microgrid_optimizer.py:187-254`): flat fallbacks when fewer than two
frequency bins exist (`half_len ≤ 1`) or the magnitude list is empty;
otherwise reconstruct from the `K = min(2, L/2 − 1)` dominant bins plus
DC and mirrors, extend the length-`L` signal cyclically over the
horizon (`raw[t] = f[t mod L]`), blend toward the latest demand with
weight `w[t] = exp(−t·0.1)`, and clip at 0. -/
def fourier_forecast (H : ℕ) (history : List ℝ) (latest : ℝ) : List ℝ :=
  if history.length / 2 ≤ 1 then List.replicate H latest
  else if history.length / 2 - 1 = 0 then List.replicate H latest
  else
    (List.range H).map (fun t : ℕ =>
      max (Real.exp (-((t : ℝ) * (1 / 10))) * latest
        + (1 - Real.exp (-((t : ℝ) * (1 / 10))))
          * ifftRe
              (filteredCoeff history
                (dominantIndices history (min 2 (history.length / 2 - 1))))
              history.length (t % history.length)) 0)

/-- The per-node branch of `MicrogridOptimizer._generate_forecasts`
(`microgrid_optimizer.py:160-185`): Fourier forecasting once at least
`min_history_points = 5` history points exist, else the flat forecast
`np.full(horizon, latest_demand)`.  `history` is the node's
chronologically ordered demand sequence and `latest` its most recent
demand (the aggregator keeps it equal to the last history entry). -/
def generate_forecast (H : ℕ) (history : List ℝ) (latest : ℝ) : List ℝ :=
  if 5 ≤ history.length then fourier_forecast H history latest
  else List.replicate H latest

end

end Griddy

namespace Griddy

/-- C6 (amended).  Spectral-path forecasts (history length ≥ 5) are
non-negative at every horizon index — the pipeline ends in a pointwise
clip at 0.  Flat-path forecasts (history length < 5) are `H` verbatim
copies of the latest demand, with no clipping — non-negative exactly
when that demand is. -/
theorem claim_C6_forecast_nonneg :
    (∀ (H : ℕ) (history : List ℝ) (latest : ℝ), 5 ≤ history.length →
        ∀ t : ℕ, t < H → 0 ≤ (generate_forecast H history latest).getD t 0) ∧
    (∀ (H : ℕ) (history : List ℝ) (latest : ℝ), history.length < 5 →
        generate_forecast H history latest = List.replicate H latest) := by
  constructor
  · intro H history latest hlen t ht
    unfold generate_forecast
    rw [if_pos hlen]
    unfold fourier_forecast
    rw [if_neg (by omega), if_neg (by omega)]
    rw [List.getD_eq_getElem?_getD, List.getElem?_map, List.getElem?_range ht]
    simp only [Option.map_some', Option.getD_some]
    exact le_max_right _ _
  · intro H history latest hlen
    unfold generate_forecast
    rw [if_neg (by omega)]

/-- Witness for C6: a length-5 history exercising the spectral clip and
a short negative history exercising the flat path. -/
theorem claim_C6_forecast_nonneg_witness :
    (0 ≤ (generate_forecast 10 [1, 2, 3, 4, 5] 5).getD 0 0) ∧
    generate_forecast 10 [(2 : ℝ)] 2 = List.replicate 10 2 :=
  ⟨claim_C6_forecast_nonneg.1 10 [1, 2, 3, 4, 5] 5 (by simp) 0 (by norm_num),
   claim_C6_forecast_nonneg.2 10 [(2 : ℝ)] 2 (by simp)⟩

/-- Counterexample to C6 as stated: a single-record history with
negative demand −1 (float32 telemetry admits negative values) takes the
flat path, whose forecast value at every index is −1 < 0 — the flat
path applies no clipping. -/
theorem claim_C6_forecast_nonneg_counterexample :
    generate_forecast 10 [(-1 : ℝ)] (-1) = List.replicate 10 (-1) ∧
    (List.replicate 10 (-1 : ℝ)).getD 0 0 = -1 ∧
    ¬(0 ≤ (List.replicate 10 (-1 : ℝ)).getD 0 0) := by
  refine ⟨?_, rfl, by norm_num⟩
  unfold generate_forecast
  rw [if_neg (by simp)]

end Griddy

namespace Griddy

/-- C7.  The forecaster's threshold behaviour at the `min_history_points
= 5` boundary.  A node history of length exactly 4 gets the flat
forecast (`H` copies of the latest demand).  A history of length exactly
5 gets the spectral forecast: `K = min(2, ⌊L/2⌋ − 1) = 1` dominant
non-DC bin is retained — necessarily bin 1, the only candidate below the
Nyquist index — together with the DC bin 0 and the conjugate mirror bin
`5 − 1 = 4`; the filtered spectrum is inverted (`(Σ F_k e^{2πikj/5})/5`,
real part), extended cyclically (`j = t mod 5`), blended toward the
latest demand with weight `exp(−t·0.1)`, and clipped at 0. -/
theorem claim_C7_forecast_threshold :
    (∀ (H : ℕ) (history : List ℝ) (latest : ℝ), history.length = 4 →
        generate_forecast H history latest = List.replicate H latest) ∧
    (∀ (H : ℕ) (history : List ℝ) (latest : ℝ), history.length = 5 →
        min 2 (history.length / 2 - 1) = 1 ∧
        dominantIndices history 1 = [1] ∧
        (∀ t : ℕ, t < H → (generate_forecast H history latest).getD t 0
          = max (Real.exp (-((t : ℝ) * (1 / 10))) * latest
              + (1 - Real.exp (-((t : ℝ) * (1 / 10))))
                * (((dftCoeff history 0
                    + dftCoeff history 1
                      * Complex.exp ((2 * (Real.pi : ℂ) * Complex.I * 1 * ((t % 5 : ℕ) : ℂ)) / 5)
                    + dftCoeff history 4
                      * Complex.exp ((2 * (Real.pi : ℂ) * Complex.I * 4 * ((t % 5 : ℕ) : ℂ)) / 5))
                    / 5).re)) 0)) := by
  constructor
  · intro H history latest hlen
    unfold generate_forecast
    rw [if_neg (by omega)]
  · intro H history latest hlen
    have hmags : fourierMagnitudes history = [Complex.abs (dftCoeff history 1)] := by
      unfold fourierMagnitudes
      rw [hlen]
      rfl
    have hdom : dominantIndices history 1 = [1] := by
      unfold dominantIndices
      rw [hmags]
      rfl
    refine ⟨by rw [hlen]; decide, hdom, ?_⟩
    intro t ht
    have h0 : filteredCoeff history [1] 0 = dftCoeff history 0 := by
      unfold filteredCoeff
      rw [if_pos rfl]
    have h1 : filteredCoeff history [1] 1 = dftCoeff history 1 := by
      unfold filteredCoeff
      rw [if_neg (by norm_num), if_pos (by simp)]
    have h2 : filteredCoeff history [1] 2 = 0 := by
      unfold filteredCoeff
      rw [if_neg (by norm_num), if_neg (by simp), if_neg (by simp [hlen])]
    have h3 : filteredCoeff history [1] 3 = 0 := by
      unfold filteredCoeff
      rw [if_neg (by norm_num), if_neg (by simp), if_neg (by simp [hlen])]
    have h4 : filteredCoeff history [1] 4 = dftCoeff history 4 := by
      have hcond : ∃ i ∈ [1], i < history.length - 1 ∧ 4 = history.length - i :=
        ⟨1, by simp, by omega, by omega⟩
      unfold filteredCoeff
      rw [if_neg (by norm_num), if_neg (by simp), if_pos hcond]
    have hifft : ∀ j : ℕ, ifftRe (filteredCoeff history [1]) 5 j
        = ((dftCoeff history 0
            + dftCoeff history 1
              * Complex.exp ((2 * (Real.pi : ℂ) * Complex.I * 1 * (j : ℂ)) / 5)
            + dftCoeff history 4
              * Complex.exp ((2 * (Real.pi : ℂ) * Complex.I * 4 * (j : ℂ)) / 5)) / 5).re := by
      intro j
      unfold ifftRe
      congr 2
      rw [Finset.sum_range_succ, Finset.sum_range_succ, Finset.sum_range_succ,
        Finset.sum_range_succ, Finset.sum_range_succ, Finset.sum_range_zero]
      rw [h0, h1, h2, h3, h4]
      simp only [Nat.cast_zero, Nat.cast_one, Nat.cast_ofNat, mul_zero, zero_mul,
        zero_div, Complex.exp_zero, mul_one, zero_add, add_zero]
    unfold generate_forecast
    rw [if_pos (by omega)]
    unfold fourier_forecast
    rw [if_neg (by omega), if_neg (by omega)]
    rw [List.getD_eq_getElem?_getD, List.getElem?_map, List.getElem?_range ht]
    simp only [Option.map_some', Option.getD_some]
    rw [hlen]
    have hmin : min 2 (5 / 2 - 1) = 1 := by decide
    rw [hmin, hdom, hifft (t % 5)]

/-- Witness for C7: concrete histories of lengths 4 and 5. -/
theorem claim_C7_forecast_threshold_witness :
    ([(1 : ℝ), 2, 3, 4].length = 4 ∧
      generate_forecast 10 [(1 : ℝ), 2, 3, 4] 4 = List.replicate 10 4) ∧
    ([(1 : ℝ), 2, 3, 4, 5].length = 5 ∧
      dominantIndices [(1 : ℝ), 2, 3, 4, 5] 1 = [1]) :=
  ⟨⟨rfl, claim_C7_forecast_threshold.1 10 [(1 : ℝ), 2, 3, 4] 4 rfl⟩,
   ⟨rfl, (claim_C7_forecast_threshold.2 10 [(1 : ℝ), 2, 3, 4, 5] 5 rfl).2.1⟩⟩

end Griddy
